/-
Verification of the spotidown repository's search-engine and downloader
modules against its natural-language specification.

Shallow embedding conventions:
* Python float arithmetic is modelled exactly: score bookkeeping uses ℚ for
  the rational parts and ℝ where `math.log10` enters (the popularity
  sub-score), so `0.25 + 0.25 = 0.5` etc. hold exactly as in the spec.
* Python strings are Lean `String`s; `word in title` is substring
  containment, `s.split()` splits on whitespace runs dropping empties,
  `s.lower()` is `pyLower`, `s.strip()` is `pyTrim`.
* External collaborators (yt-dlp search/fetch subprocesses, ffprobe, the
  filesystem) are explicit oracle parameters; a subprocess outcome is an
  inductive value (completed with exit code and output lines / timed out /
  raised), so every exception path of the Python code is a constructor case.
* The filesystem is a map `String → Option ℕ` from paths to file sizes;
  `os.remove` and `os.rename` are functional updates.
-/
import Mathlib

/-! ## Python string primitives -/

/-- Substring containment: Python's `w in t` for strings. -/
def strContains (t w : String) : Bool :=
  t.toList.tails.any (fun s => w.toList.isPrefixOf s)

/-- Python's `s.lower()` (character-wise, structurally recursive so that it
evaluates definitionally). -/
def pyLower (s : String) : String :=
  (s.toList.map Char.toLower).asString

/-- Worker for `pySplit`: current partial word is accumulated reversed. -/
def pySplitAux : List Char → List Char → List String
  | [], cur => if cur.isEmpty then [] else [cur.reverse.asString]
  | c :: cs, cur =>
    if c.isWhitespace then
      if cur.isEmpty then pySplitAux cs [] else cur.reverse.asString :: pySplitAux cs []
    else pySplitAux cs (c :: cur)

/-- Python's `s.split()`: split on whitespace runs, dropping empty pieces. -/
def pySplit (s : String) : List String :=
  pySplitAux s.toList []

/-- Python's `s.strip()`. -/
def pyTrim (s : String) : String :=
  ((s.toList.dropWhile Char.isWhitespace).reverse.dropWhile Char.isWhitespace).reverse.asString

/-- Worker for `pySplitOnChar`. -/
def pySplitOnCharAux (sep : Char) : List Char → List Char → List String
  | [], cur => [cur.reverse.asString]
  | c :: cs, cur =>
    if c = sep then cur.reverse.asString :: pySplitOnCharAux sep cs []
    else pySplitOnCharAux sep cs (c :: cur)

/-- Python's `s.split(sep)` for a one-character separator. -/
def pySplitOnChar (sep : Char) (s : String) : List String :=
  pySplitOnCharAux sep s.toList []

/-- Python's `s.endswith(suf)`. -/
def strEndsWith (s suf : String) : Bool :=
  suf.toList.isSuffixOf s.toList

/-- Python's `int()` truncation toward zero on a rational. -/
def pyInt (q : ℚ) : ℤ :=
  if 0 ≤ q then ⌊q⌋ else -⌊-q⌋

/-! ## Data model (spotify_client.py / search_engine.py) -/

/-- `TrackMetadata` dataclass from spotify_client.py. -/
structure TrackMetadata where
  track_id : String
  name : String
  artist : String
  album : String
  album_art_url : Option String
  isrc : Option String
  duration_ms : ℤ
  release_date : Option String
  deriving DecidableEq

/-- `"".join(c for c in s if c.isalnum() or c in " -_").strip()`. -/
def sanitize (s : String) : String :=
  pyTrim (s.toList.filter (fun c => c.isAlphanum || c = ' ' || c = '-' || c = '_')).asString

/-- Derived `filename` property: sanitized `"artist - name"`. -/
def TrackMetadata.filename (m : TrackMetadata) : String :=
  sanitize m.artist ++ " - " ++ sanitize m.name

/-- One parsed JSON line of yt-dlp search output (a raw result dict).
Fields the engine reads, each optional as in `dict.get`. -/
structure RawResult where
  title : Option String
  url : Option String
  id : Option String
  duration : Option ℚ
  view_count : Option ℕ
  deriving DecidableEq

/-- `SearchResult` dataclass from search_engine.py. -/
structure SearchResult where
  url : String
  title : String
  duration : ℚ
  view_count : ℕ
  source : String
  quality_score : ℝ

/-- The `SearchEngine.__init__` configuration. -/
structure SearchConfig where
  max_retries : ℕ
  duration_tolerance : ℚ
  min_quality_score : ℚ

/-- Defaults: `max_retries=5, duration_tolerance=0.30, min_quality_score=0.3`. -/
def defaultSearchConfig : SearchConfig :=
  { max_retries := 5, duration_tolerance := 0.30, min_quality_score := 0.3 }

/-! ## Match scorer (`SearchEngine._calculate_quality_score`) -/

/-- One title-relevance loop: `if len(word) > 2 and word in title: s += 0.25`. -/
def wordHits (title : String) (ws : List String) (s : ℚ) : ℚ :=
  ws.foldl (fun acc w => if 2 < w.length ∧ strContains title w = true then acc + 0.25 else acc) s

/-- Title relevance sub-score: artist-word loop, then track-word loop,
then `min(1.0, title_score)`. -/
def titleRelevance (title artistLower nameLower : String) : ℚ :=
  min 1 (wordHits title (pySplit nameLower) (wordHits title (pySplit artistLower) 0))

/-- Duration contribution to the score (already weighted): the
`duration > 0 and target_duration > 0` branch adds `duration_score * 0.25`,
the else branch adds a flat `0.1`. -/
def durationContrib (tol dur target : ℚ) : ℚ :=
  if 0 < dur ∧ 0 < target then
    (if |dur - target| / max target 1 ≤ tol then
      1 - (|dur - target| / max target 1) / tol
     else
      max 0 (0.5 - (|dur - target| / max target 1) * 0.3)) * 0.25
  else 0.1

/-- Popularity contribution (already weighted):
`min(1.0, log10(view_count + 1) / 8) * 0.15` when positive, else flat `0.05`. -/
noncomputable def popularityContrib (v : ℕ) : ℝ :=
  if 0 < v then min 1 (Real.logb 10 ((v : ℝ) + 1) / 8) * 0.15 else 0.05

def officialKeywords : List String :=
  ["official", "audio", "lyrics", "hd", "hq", "full"]

def badKeywords : List String :=
  ["cover", "remix", "live", "karaoke", "instrumental", "acoustic", "slowed", "reverb"]

/-- Positive-keyword step: `keyword_score = min(1.0, keyword_score + 0.1)`. -/
def kwUp (title : String) (s : ℚ) (k : String) : ℚ :=
  if strContains title k = true then min 1 (s + 0.1) else s

/-- Negative-keyword step: applies only when the keyword is in the title and
not in the track name: `keyword_score = max(0.0, keyword_score - 0.15)`. -/
def kwDown (title nameLower : String) (s : ℚ) (k : String) : ℚ :=
  if strContains title k = true ∧ strContains nameLower k = false then max 0 (s - 0.15) else s

/-- Keyword sub-score: start at 0.5, positive loop then negative loop. -/
def keywordScore (title nameLower : String) : ℚ :=
  badKeywords.foldl (kwDown title nameLower) (officialKeywords.foldl (kwUp title) 0.5)

/-- `SearchEngine._calculate_quality_score`: the four weighted sub-scores
summed, then `min(1.0, max(0.1, score))`. -/
noncomputable def calculate_quality_score (tol : ℚ) (r : RawResult) (m : TrackMetadata)
    (target : ℚ) : ℝ :=
  min 1 (max 0.1
    (((titleRelevance (pyLower (r.title.getD "")) (pyLower m.artist) (pyLower m.name) * 0.5
        + durationContrib tol (r.duration.getD 0) target : ℚ) : ℝ)
      + popularityContrib (r.view_count.getD 0)
      + ((keywordScore (pyLower (r.title.getD "")) (pyLower m.name) * 0.1 : ℚ) : ℝ)))

/-! ## C1: score bounds -/

/-- C1: For every candidate result and every TrackDescriptor (and any
tolerance and target duration), `_calculate_quality_score` returns the
clamped sum of the weighted sub-scores, which is never below 0.1 and never
above 1.0. -/
theorem c1_score_bounds (tol : ℚ) (r : RawResult) (m : TrackMetadata) (target : ℚ) :
    (0.1 : ℝ) ≤ calculate_quality_score tol r m target
      ∧ calculate_quality_score tol r m target ≤ 1 := by
  unfold calculate_quality_score
  constructor
  · exact le_min (by norm_num) (le_max_left _ _)
  · exact min_le_left _ _

/-! ## Query generator (`SearchEngine._generate_search_queries`) -/

/-- `artist.split(",")[0].strip() if "," in artist else artist`. -/
def first_artist (artist : String) : String :=
  if strContains artist "," = true then pyTrim ((pySplitOnChar ',' artist).headD "") else artist

/-- `SearchEngine._generate_search_queries`.  The ISRC query is appended
only under Python truthiness (`if metadata.isrc:`), i.e. when the ISRC is
present and non-empty; the first-artist variant is always appended last
(it coincides with the first query when the artist field has no comma). -/
def isrcQueries : Option String → List String
  | some i => if i = "" then [] else [i]
  | none => []

def generate_search_queries (m : TrackMetadata) : List String :=
  [m.artist ++ " " ++ m.name,
   m.artist ++ " " ++ m.name ++ " official audio",
   m.name ++ " " ++ m.artist]
  ++ isrcQueries m.isrc
  ++ [m.artist ++ " " ++ m.name ++ " lyrics",
      m.name ++ " audio",
      m.name ++ " " ++ m.album,
      m.name ++ " full song",
      first_artist m.artist ++ " " ++ m.name]

/-! ## Search execution (`SearchEngine._execute_search`) -/

/-- One line of yt-dlp stdout: a JSON object that parses to a result dict,
a line `json.loads` rejects, or a blank line (`if line:` skips it). -/
inductive LineOut where
  | jsonOk (r : RawResult)
  | jsonBad
  | blank
  deriving DecidableEq

/-- Outcome of the yt-dlp search subprocess: completed with an exit code and
stdout lines, killed by the 30 s timeout (`subprocess.TimeoutExpired`), or
any other exception. -/
inductive ExecOutcome where
  | completed (returncode : ℤ) (lines : List LineOut)
  | timedOut
  | raised (msg : String)

/-- Extract the parsed dict from one stdout line, skipping blank and
malformed lines. -/
def lineResult : LineOut → Option RawResult
  | .jsonOk r => some r
  | .jsonBad => none
  | .blank => none

/-- `SearchEngine._execute_search`: nonzero exit, timeout and exceptions all
become `[]`; otherwise the successfully parsed JSON lines. -/
def execute_search (out : ExecOutcome) : List RawResult :=
  match out with
  | .completed rc lines => if rc ≠ 0 then [] else lines.filterMap lineResult
  | .timedOut => []
  | .raised _ => []

/-! ## Best-match selection (`SearchEngine._find_best_match`) -/

/-- Python `or` on an optional string with a fallback: `None` and `""` are
falsy. -/
def pyOr (a : Option String) (b : String) : String :=
  match a with
  | some s => if s = "" then b else s
  | none => b

/-- `result.get("url", "").split("watch?v=")[-1]`. -/
def lastSplitOn (s sep : String) : String :=
  (s.splitOn sep).getLastD s

/-- Build one scored `SearchResult` from a raw dict
(the loop body of `_find_best_match`). -/
noncomputable def to_search_result (tol : ℚ) (m : TrackMetadata) (target : ℚ)
    (r : RawResult) : SearchResult :=
  { url := pyOr r.url ("https://www.youtube.com/watch?v="
        ++ pyOr r.id (lastSplitOn (r.url.getD "") "watch?v=")),
    title := r.title.getD "Unknown",
    duration := if r.duration.getD 0 = 0 then (pyInt target : ℚ) else r.duration.getD 0,
    view_count := r.view_count.getD 0,
    source := "youtube",
    quality_score := calculate_quality_score tol r m target }

/-- Replace the running best only on a strictly higher score; keeping the
earlier element on ties matches the head of Python's stable
`sort(key=score, reverse=True)`. -/
noncomputable def pickStep (b y : SearchResult) : SearchResult :=
  if b.quality_score < y.quality_score then y else b

/-- Head of the stable descending sort by `quality_score`
(`scored_results.sort(...); scored_results[0]`), `none` on an empty list. -/
noncomputable def pickBest : List SearchResult → Option SearchResult
  | [] => none
  | x :: xs => some (xs.foldl pickStep x)

/-- `SearchEngine._find_best_match`: score every raw result against the
descriptor (target duration is `duration_ms / 1000`) and return the
highest-scoring one, `none` when there are no results. -/
noncomputable def find_best_match (tol : ℚ) (results : List RawResult)
    (m : TrackMetadata) : Option SearchResult :=
  pickBest (results.map (to_search_result tol m ((m.duration_ms : ℚ) / 1000)))

/-! ## Search orchestrator (`SearchEngine.search`)

The loop body `if not results: continue` and the guard `if best_match:` both
skip to the next query exactly when `_find_best_match` yields nothing (it
returns `None` only for an empty result list), so the loop is embedded by
matching on `find_best_match` directly.  The second component counts the
calls made to the external search collaborator. -/

noncomputable def searchGo (cfg : SearchConfig) (exec : String → ExecOutcome)
    (m : TrackMetadata) : List String → List SearchResult → Option SearchResult × ℕ
  | [], acc => (pickBest acc, 0)
  | q :: qs, acc =>
    match find_best_match cfg.duration_tolerance (execute_search (exec q)) m with
    | none =>
      let p := searchGo cfg exec m qs acc
      (p.1, p.2 + 1)
    | some best =>
      if (cfg.min_quality_score : ℝ) ≤ best.quality_score then (some best, 1)
      else
        let p := searchGo cfg exec m qs (acc ++ [best])
        (p.1, p.2 + 1)

/-- `SearchEngine.search`: run the retry loop over the first `max_retries`
generated queries, starting from an empty `all_results` accumulator. -/
noncomputable def search (cfg : SearchConfig) (exec : String → ExecOutcome)
    (m : TrackMetadata) : Option SearchResult × ℕ :=
  searchGo cfg exec m ((generate_search_queries m).take cfg.max_retries) []

/-- The per-query best candidates collected by the loop (`all_results`
when no early accept fires): one entry per query whose search produced
results. -/
noncomputable def queryBests (cfg : SearchConfig) (exec : String → ExecOutcome)
    (m : TrackMetadata) (qs : List String) : List SearchResult :=
  qs.filterMap (fun q => find_best_match cfg.duration_tolerance (execute_search (exec q)) m)

/-! ## Downloader data model (downloader.py) -/

/-- `DownloadResult` dataclass. -/
structure DownloadResult where
  success : Bool
  file_path : Option String
  metadata : TrackMetadata
  error : Option String
  file_size : ℕ
  bitrate : ℤ
  deriving DecidableEq

/-- `Downloader.__init__` configuration. -/
structure DlConfig where
  output_dir : String
  max_workers : ℕ
  min_bitrate : ℤ
  min_file_size : ℕ
  audio_quality : String

/-- Defaults: `output_dir="downloads", max_workers=4, min_bitrate=128,
min_file_size=500000, audio_quality="0"`. -/
def defaultDlConfig : DlConfig :=
  { output_dir := "downloads", max_workers := 4, min_bitrate := 128,
    min_file_size := 500000, audio_quality := "0" }

/-- The filesystem, as path ↦ size of the file there (`none`: no file). -/
def Files : Type := String → Option ℕ

/-- `os.remove`. -/
def erase_file (fs : Files) (path : String) : Files :=
  fun p => if p = path then none else fs p

/-- `os.rename src dst`. -/
def rename_file (fs : Files) (src dst : String) : Files :=
  fun p => if p = dst then fs src else if p = src then none else fs p

/-- Outcome of the yt-dlp fetch subprocess: completed with an exit code,
stderr text, the filesystem it left behind and the `os.listdir` view of the
output directory; or killed by the 300 s timeout; or any other exception. -/
inductive FetchOutcome where
  | done (exitCode : ℤ) (stderr : String) (filesAfter : Files) (listing : List String)
  | timedOut
  | raised (msg : String)

/-- The external collaborators of the downloader: the two ffprobe calls of
`_get_bitrate` (`none` models nonzero exit, empty stdout, timeout or any
exception) and the yt-dlp fetch, keyed by source URL. -/
structure Oracle where
  probeBitrateRaw : String → Option ℤ
  probeDuration : String → Option ℚ
  fetch : String → FetchOutcome

/-- The canonical artifact path `os.path.join(output_dir, filename + ".mp3")`. -/
def final_path (cfg : DlConfig) (m : TrackMetadata) : String :=
  cfg.output_dir ++ "/" ++ m.filename ++ ".mp3"

/-- `Downloader._get_bitrate`: stream bit_rate probe first (`bps // 1000`);
on failure, estimate from `getsize` and the duration probe as
`int(size * 8 / (duration * 1000))`; if the size or a positive duration is
unavailable, the conservative default 192. -/
def get_bitrate (o : Oracle) (files : Files) (path : String) : ℤ :=
  match o.probeBitrateRaw path with
  | some bps => Int.fdiv bps 1000
  | none =>
    match files path with
    | none => 192
    | some sz =>
      match o.probeDuration path with
      | none => 192
      | some d => if 0 < d then ⌊((sz : ℚ) * 8) / (d * 1000)⌋ else 192

/-- `Downloader._validate_file_detailed`: `(is_valid, file_size, bitrate)`;
a missing file (`os.path.getsize` raising) yields `(False, 0, 0)`. -/
def validate_file_detailed (cfg : DlConfig) (o : Oracle) (files : Files)
    (path : String) : Bool × ℕ × ℤ :=
  match files path with
  | none => (false, 0, 0)
  | some sz =>
    if sz < cfg.min_file_size then (false, sz, 0)
    else
      if get_bitrate o files path < cfg.min_bitrate then (false, sz, get_bitrate o files path)
      else (true, sz, get_bitrate o files path)

/-- A failed `DownloadResult` (the dataclass defaults fill the metrics). -/
def failResult (m : TrackMetadata) (e : String) : DownloadResult :=
  { success := false, file_path := none, metadata := m, error := some e,
    file_size := 0, bitrate := 0 }

/-- Output of one acquisition: the result, the filesystem left behind, and
how many times the fetch collaborator was invoked. -/
structure DlOut where
  res : DownloadResult
  files : Files
  fetchCalls : ℕ

/-- The filesystem after the canonical-path fallback: if yt-dlp did not
write the canonical path, look for a directory entry starting with the
first 20 characters of the filename and, when it ends in `.mp3`, rename it
into place. -/
def post_fetch_files (cfg : DlConfig) (m : TrackMetadata) (filesA : Files)
    (listing : List String) : Files :=
  if (filesA (final_path cfg m)).isSome then filesA
  else
    match listing.filter (fun f => (m.filename.take 20).isPrefixOf f) with
    | [] => filesA
    | f :: _ =>
      if strEndsWith (cfg.output_dir ++ "/" ++ f) ".mp3" = true then
        rename_file filesA (cfg.output_dir ++ "/" ++ f) (final_path cfg m)
      else filesA

/-- The `try:` block of `download_single` from the yt-dlp invocation on:
exit-code check, canonical-path fallback rename, detailed validation with
deletion on rejection, and the success result carrying the measured
metrics. -/
def download_fetch (cfg : DlConfig) (o : Oracle) (sr : SearchResult)
    (m : TrackMetadata) (files : Files) : DlOut :=
  match o.fetch sr.url with
  | .timedOut => ⟨failResult m "Download timed out", files, 1⟩
  | .raised msg => ⟨failResult m msg, files, 1⟩
  | .done code stderr filesA listing =>
    if code ≠ 0 then ⟨failResult m ("Download failed: " ++ stderr), filesA, 1⟩
    else
      if (post_fetch_files cfg m filesA listing (final_path cfg m)).isNone then
        ⟨failResult m "Output file not found after download",
          post_fetch_files cfg m filesA listing, 1⟩
      else
        if (validate_file_detailed cfg o (post_fetch_files cfg m filesA listing)
            (final_path cfg m)).1 then
          ⟨{ success := true, file_path := some (final_path cfg m), metadata := m, error := none,
             file_size := (validate_file_detailed cfg o (post_fetch_files cfg m filesA listing)
               (final_path cfg m)).2.1,
             bitrate := (validate_file_detailed cfg o (post_fetch_files cfg m filesA listing)
               (final_path cfg m)).2.2 }, post_fetch_files cfg m filesA listing, 1⟩
        else
          ⟨failResult m ("File validation failed (size: "
              ++ toString (validate_file_detailed cfg o (post_fetch_files cfg m filesA listing)
                (final_path cfg m)).2.1
              ++ ", bitrate: "
              ++ toString (validate_file_detailed cfg o (post_fetch_files cfg m filesA listing)
                (final_path cfg m)).2.2 ++ ")"),
            erase_file (post_fetch_files cfg m filesA listing) (final_path cfg m), 1⟩

/-- `Downloader.download_single`: idempotency check at the canonical path
(return success without fetching when the existing artifact validates,
delete it and fetch when it does not), then the fetch phase. -/
def download_single (cfg : DlConfig) (o : Oracle) (sr : SearchResult)
    (m : TrackMetadata) (files : Files) : DlOut :=
  if (files (final_path cfg m)).isSome then
    if (validate_file_detailed cfg o files (final_path cfg m)).1 then
      ⟨{ success := true, file_path := some (final_path cfg m), metadata := m,
         error := none, file_size := 0, bitrate := 0 }, files, 0⟩
    else download_fetch cfg o sr m (erase_file files (final_path cfg m))
  else download_fetch cfg o sr m files

/-! ## Batch coordinator (`Downloader.download_batch`)

The worker pool submits one `download_single` call per item and collects
results with `as_completed`, wrapping each `future.result()` in a
per-future `try/except`.  The per-item work is abstracted as `run`
(an exception during it is the `Except.error` case) and the unconstrained
completion order as a permutation of the item indices. -/

/-- Collect one finished future: its result, or the `except` fallback
result built from the item's metadata. -/
def collectOne (item : SearchResult × TrackMetadata)
    (run : SearchResult × TrackMetadata → Except String DownloadResult) : DownloadResult :=
  match run item with
  | .ok r => r
  | .error e => failResult item.2 e

/-- `Downloader.download_batch`: results in completion order `order`. -/
def download_batch (items : List (SearchResult × TrackMetadata))
    (run : SearchResult × TrackMetadata → Except String DownloadResult)
    (order : List (Fin items.length)) : List DownloadResult :=
  order.map (fun i => collectOne (items.get i) run)

/-! ## Scorer lemmas -/

/-- The title-relevance loop adds exactly 0.25 per qualifying word. -/
lemma wordHits_countP (title : String) : ∀ (ws : List String) (s : ℚ),
    wordHits title ws s
      = s + 0.25 * (ws.countP (fun w => decide (2 < w.length ∧ strContains title w = true)) : ℚ)
  | [], s => by simp [wordHits]
  | w :: ws, s => by
    have hstep : wordHits title (w :: ws) s
        = wordHits title ws (if 2 < w.length ∧ strContains title w = true then s + 0.25 else s) :=
      rfl
    rw [hstep, wordHits_countP title ws, List.countP_cons]
    by_cases h : 2 < w.length ∧ strContains title w = true
    · simp only [if_pos h, decide_eq_true h]
      push_cast
      ring
    · simp only [if_neg h, decide_eq_false h]
      push_cast
      ring

lemma kwUp_foldl_nonneg (title : String) : ∀ (l : List String) (s : ℚ), 0 ≤ s →
    0 ≤ l.foldl (kwUp title) s
  | [], _, h => h
  | k :: l, s, h => by
    refine kwUp_foldl_nonneg title l (kwUp title s k) ?_
    unfold kwUp
    split
    · exact le_min (by norm_num) (by linarith)
    · exact h

lemma kwDown_foldl_nonneg (title nameLower : String) : ∀ (l : List String) (s : ℚ), 0 ≤ s →
    0 ≤ l.foldl (kwDown title nameLower) s
  | [], _, h => h
  | k :: l, s, h => by
    refine kwDown_foldl_nonneg title nameLower l (kwDown title nameLower s k) ?_
    unfold kwDown
    split
    · exact le_max_left 0 _
    · exact h

lemma keywordScore_nonneg (title nameLower : String) : 0 ≤ keywordScore title nameLower :=
  kwDown_foldl_nonneg title nameLower badKeywords _
    (kwUp_foldl_nonneg title officialKeywords 0.5 (by norm_num))

lemma popularityContrib_nonneg (v : ℕ) : 0 ≤ popularityContrib v := by
  unfold popularityContrib
  split
  · refine mul_nonneg (le_min (by norm_num) (div_nonneg ?_ (by norm_num))) (by norm_num)
    refine Real.logb_nonneg (by norm_num) ?_
    have : (0 : ℝ) ≤ (v : ℝ) := Nat.cast_nonneg v
    linarith
  · norm_num

/-- A title containing at least four qualifying words saturates the
title-relevance sub-score. -/
lemma titleRelevance_saturated (title aL nL : String)
    (ha : ∀ w ∈ pySplit aL, strContains title w = true)
    (hn : ∀ w ∈ pySplit nL, strContains title w = true)
    (hc : 4 ≤ (pySplit aL).countP (fun w => decide (2 < w.length))
        + (pySplit nL).countP (fun w => decide (2 < w.length))) :
    titleRelevance title aL nL = 1 := by
  unfold titleRelevance
  rw [wordHits_countP, wordHits_countP]
  have ea : (pySplit aL).countP (fun w => decide (2 < w.length ∧ strContains title w = true))
      = (pySplit aL).countP (fun w => decide (2 < w.length)) := by
    refine List.countP_congr ?_
    intro w hw
    simp [ha w hw]
  have en : (pySplit nL).countP (fun w => decide (2 < w.length ∧ strContains title w = true))
      = (pySplit nL).countP (fun w => decide (2 < w.length)) := by
    refine List.countP_congr ?_
    intro w hw
    simp [hn w hw]
  rw [ea, en]
  have h4 : (4 : ℚ) ≤ ((pySplit aL).countP (fun w => decide (2 < w.length)) : ℚ)
      + ((pySplit nL).countP (fun w => decide (2 < w.length)) : ℚ) := by
    exact_mod_cast hc
  have : (1 : ℚ) ≤ 0 + 0.25 * ((pySplit aL).countP (fun w => decide (2 < w.length)) : ℚ)
      + 0.25 * ((pySplit nL).countP (fun w => decide (2 < w.length)) : ℚ) := by linarith
  rw [min_eq_left (by linarith)]

/-- An exact duration match at a positive target earns the full weighted
duration credit. -/
lemma durationContrib_exact (tol target : ℚ) (htol : 0 ≤ tol) (hpos : 0 < target) :
    durationContrib tol target target = 0.25 := by
  unfold durationContrib
  rw [if_pos ⟨hpos, hpos⟩]
  have hz : |target - target| / max target 1 = 0 := by simp
  rw [if_pos (by rw [hz]; exact htol), hz]
  norm_num

lemma foldl_kwUp_id (title : String) : ∀ (l : List String) (s : ℚ),
    (∀ k ∈ l, strContains title k = false) → l.foldl (kwUp title) s = s
  | [], _, _ => rfl
  | k :: l, s, h => by
    have hk : kwUp title s k = s := by
      unfold kwUp
      rw [h k (List.mem_cons_self k l)]
      simp
    rw [List.foldl_cons, hk]
    exact foldl_kwUp_id title l s (fun x hx => h x (List.mem_cons_of_mem k hx))

lemma foldl_kwDown_id (title nL : String) : ∀ (l : List String) (s : ℚ),
    (∀ k ∈ l, strContains title k = false) → l.foldl (kwDown title nL) s = s
  | [], _, _ => rfl
  | k :: l, s, h => by
    have hk : kwDown title nL s k = s := by
      unfold kwDown
      rw [h k (List.mem_cons_self k l)]
      simp
    rw [List.foldl_cons, hk]
    exact foldl_kwDown_id title nL l s (fun x hx => h x (List.mem_cons_of_mem k hx))

/-- A title containing no scoring keyword at all keeps the baseline
keyword sub-score 0.5. -/
lemma keywordScore_neutral (title nL : String)
    (h : ∀ k ∈ officialKeywords ++ badKeywords, strContains title k = false) :
    keywordScore title nL = 0.5 := by
  unfold keywordScore
  rw [foldl_kwUp_id title officialKeywords 0.5
    (fun k hk => h k (List.mem_append_left _ hk))]
  exact foldl_kwDown_id title nL badKeywords 0.5
    (fun k hk => h k (List.mem_append_right _ hk))

/-! ## C2: high-scoring full match -/

/-- Concrete descriptor for C2: artist and track name contribute four
qualifying words (each longer than two characters). -/
def mC2 : TrackMetadata :=
  { track_id := "t1", name := "ghi jkl", artist := "abc def", album := "alb",
    album_art_url := none, isrc := none, duration_ms := 200000, release_date := none }

/-- Concrete candidate for C2: its title contains every artist and track
word, its duration matches the 200 s target exactly, but it has zero views
and no keyword bonus. -/
def rC2 : RawResult :=
  { title := some "abc def ghi jkl", url := none, id := none,
    duration := some 200, view_count := some 0 }

/-- C2 counterexample: at this concrete input every hypothesis of the claim
holds — the title contains every word of the artist field and of the track
name (case-insensitively, as substrings) and the candidate duration equals
the positive target exactly — yet the score is 0.85 < 0.9, because zero
popularity earns only the flat 0.05 credit and a neutral title earns only
the baseline keyword credit 0.5 × 0.1. -/
theorem c2_counterexample :
    (∀ w ∈ pySplit (pyLower mC2.artist), strContains (pyLower (rC2.title.getD "")) w = true)
    ∧ (∀ w ∈ pySplit (pyLower mC2.name), strContains (pyLower (rC2.title.getD "")) w = true)
    ∧ rC2.duration.getD 0 = 200 ∧ (0 : ℚ) < 200
    ∧ calculate_quality_score 0.3 rC2 mC2 200 < 0.9 := by
  refine ⟨by decide, by decide, by decide, by norm_num, ?_⟩
  have ht : titleRelevance (pyLower (rC2.title.getD "")) (pyLower mC2.artist) (pyLower mC2.name)
      = 1 := by
    unfold titleRelevance
    rw [wordHits_countP, wordHits_countP]
    have ca : (pySplit (pyLower mC2.artist)).countP
        (fun w => decide (2 < w.length ∧ strContains (pyLower (rC2.title.getD "")) w = true))
        = 2 := by decide
    have cn : (pySplit (pyLower mC2.name)).countP
        (fun w => decide (2 < w.length ∧ strContains (pyLower (rC2.title.getD "")) w = true))
        = 2 := by decide
    rw [ca, cn]
    norm_num
  have hd : durationContrib 0.3 (rC2.duration.getD 0) 200 = 0.25 := by
    show durationContrib 0.3 200 200 = 0.25
    exact durationContrib_exact 0.3 200 (by norm_num) (by norm_num)
  have hk : keywordScore (pyLower (rC2.title.getD "")) (pyLower mC2.name) = 0.5 :=
    keywordScore_neutral _ _ (by decide)
  have hv : rC2.view_count.getD 0 = 0 := rfl
  unfold calculate_quality_score
  rw [ht, hd, hk, hv]
  have hp : popularityContrib 0 = 0.05 := by unfold popularityContrib; norm_num
  rw [hp]
  have h1 : ((1 * 0.5 + 0.25 : ℚ) : ℝ) = 0.75 := by norm_num
  have h2 : ((0.5 * 0.1 : ℚ) : ℝ) = 0.05 := by norm_num
  rw [h1, h2]
  have h3 : (0.75 : ℝ) + 0.05 + 0.05 = 0.85 := by norm_num
  rw [h3, max_eq_right (by norm_num : (0.1 : ℝ) ≤ 0.85),
    min_eq_right (by norm_num : (0.85 : ℝ) ≤ 1)]
  norm_num

/-- C2 (amended): the 0.9 bound fails (see the counterexample, which scores
0.85), and without at least four qualifying words the title sub-score cannot
saturate.  What the code guarantees: for every candidate whose title
contains (case-insensitively, as substrings) every word of the artist field
and of the track name, where artist and name together contain at least four
words longer than two characters, and whose duration equals the positive
target exactly, the score is at least 0.75 (the title and duration
sub-scores are then earned in full; popularity and keyword contributions
are only known to be nonnegative). -/
theorem c2_amended_high_match (tol : ℚ) (r : RawResult) (m : TrackMetadata) (target : ℚ)
    (htol : 0 ≤ tol)
    (hart : ∀ w ∈ pySplit (pyLower m.artist), strContains (pyLower (r.title.getD "")) w = true)
    (hname : ∀ w ∈ pySplit (pyLower m.name), strContains (pyLower (r.title.getD "")) w = true)
    (hcount : 4 ≤ (pySplit (pyLower m.artist)).countP (fun w => decide (2 < w.length))
        + (pySplit (pyLower m.name)).countP (fun w => decide (2 < w.length)))
    (hdur : r.duration.getD 0 = target) (hpos : 0 < target) :
    (0.75 : ℝ) ≤ calculate_quality_score tol r m target := by
  unfold calculate_quality_score
  rw [titleRelevance_saturated _ _ _ hart hname hcount, hdur,
    durationContrib_exact tol target htol hpos]
  have hp := popularityContrib_nonneg (r.view_count.getD 0)
  have hk : (0 : ℝ) ≤ ((keywordScore (pyLower (r.title.getD "")) (pyLower m.name) * 0.1 : ℚ) : ℝ) := by
    have := keywordScore_nonneg (pyLower (r.title.getD "")) (pyLower m.name)
    have : (0 : ℚ) ≤ keywordScore (pyLower (r.title.getD "")) (pyLower m.name) * 0.1 :=
      mul_nonneg this (by norm_num)
    exact_mod_cast this
  refine le_min (by norm_num) (le_max_of_le_right ?_)
  have h1 : ((1 * 0.5 + 0.25 : ℚ) : ℝ) = 0.75 := by norm_num
  rw [h1]
  linarith

/-- C2 amended witness: the counterexample input satisfies every hypothesis
of the amended theorem and indeed scores at least 0.75 (it scores 0.85). -/
theorem c2_amended_witness : (0.75 : ℝ) ≤ calculate_quality_score 0.3 rC2 mC2 200 :=
  c2_amended_high_match 0.3 rC2 mC2 200 (by norm_num) (by decide) (by decide)
    (by decide) (by decide) (by norm_num)

/-! ## Best-pick and orchestrator lemmas -/

lemma pickStep_cases (b y : SearchResult) :
    (pickStep b y = b ∨ pickStep b y = y)
      ∧ b.quality_score ≤ (pickStep b y).quality_score
      ∧ y.quality_score ≤ (pickStep b y).quality_score := by
  unfold pickStep
  split
  · exact ⟨Or.inr rfl, le_of_lt (by assumption), le_refl _⟩
  · exact ⟨Or.inl rfl, le_refl _, le_of_not_lt (by assumption)⟩

lemma foldl_pickStep_spec : ∀ (xs : List SearchResult) (x : SearchResult),
    (xs.foldl pickStep x = x ∨ xs.foldl pickStep x ∈ xs)
      ∧ x.quality_score ≤ (xs.foldl pickStep x).quality_score
      ∧ ∀ y ∈ xs, y.quality_score ≤ (xs.foldl pickStep x).quality_score
  | [], x => ⟨Or.inl rfl, le_refl _, by simp⟩
  | y :: xs, x => by
    obtain ⟨hmem, hx, hall⟩ := foldl_pickStep_spec xs (pickStep x y)
    obtain ⟨hs, hxs, hys⟩ := pickStep_cases x y
    have hfold : (y :: xs).foldl pickStep x = xs.foldl pickStep (pickStep x y) := rfl
    refine ⟨?_, ?_, ?_⟩
    · rw [hfold]
      rcases hmem with h | h
      · rcases hs with h2 | h2
        · exact Or.inl (by rw [h, h2])
        · exact Or.inr (by rw [h, h2]; exact List.mem_cons_self y xs)
      · exact Or.inr (List.mem_cons_of_mem y h)
    · rw [hfold]; exact le_trans hxs hx
    · rw [hfold]
      intro z hz
      rcases List.mem_cons.mp hz with h | h
      · rw [h]; exact le_trans hys hx
      · exact hall z h

lemma pickBest_eq_none (l : List SearchResult) : pickBest l = none ↔ l = [] := by
  cases l with
  | nil => simp [pickBest]
  | cons x xs => simp [pickBest]

/-- `pickBest` of a nonempty list is an element of maximal quality score. -/
lemma pickBest_spec (l : List SearchResult) (hl : l ≠ []) :
    ∃ b, pickBest l = some b ∧ b ∈ l ∧ ∀ x ∈ l, x.quality_score ≤ b.quality_score := by
  cases l with
  | nil => exact absurd rfl hl
  | cons x xs =>
    obtain ⟨hmem, hx, hall⟩ := foldl_pickStep_spec xs x
    refine ⟨xs.foldl pickStep x, rfl, ?_, ?_⟩
    · rcases hmem with h | h
      · rw [h]; exact List.mem_cons_self x xs
      · exact List.mem_cons_of_mem x h
    · intro z hz
      rcases List.mem_cons.mp hz with h | h
      · rw [h]; exact hx
      · exact hall z h

/-- When no query's best candidate reaches the acceptance score, the retry
loop returns the best of the accumulated per-query bests. -/
lemma searchGo_no_accept (cfg : SearchConfig) (exec : String → ExecOutcome)
    (m : TrackMetadata) : ∀ (qs : List String) (acc : List SearchResult),
    (∀ b ∈ queryBests cfg exec m qs, b.quality_score < (cfg.min_quality_score : ℝ)) →
    (searchGo cfg exec m qs acc).1 = pickBest (acc ++ queryBests cfg exec m qs)
  | [], acc, _ => by simp [searchGo, queryBests]
  | q :: qs, acc, h => by
    have hq : queryBests cfg exec m (q :: qs)
        = ((find_best_match cfg.duration_tolerance (execute_search (exec q)) m).toList)
          ++ queryBests cfg exec m qs := by
      unfold queryBests
      rw [List.filterMap_cons]
      cases find_best_match cfg.duration_tolerance (execute_search (exec q)) m <;> simp
    cases hfb : find_best_match cfg.duration_tolerance (execute_search (exec q)) m with
    | none =>
      have hqs : queryBests cfg exec m (q :: qs) = queryBests cfg exec m qs := by
        rw [hq, hfb]; simp
      have h' : ∀ b ∈ queryBests cfg exec m qs,
          b.quality_score < (cfg.min_quality_score : ℝ) := by
        intro b hb
        exact h b (by rw [hqs]; exact hb)
      simp only [searchGo, hfb]
      rw [searchGo_no_accept cfg exec m qs acc h', hqs]
    | some best =>
      have hqs : queryBests cfg exec m (q :: qs) = best :: queryBests cfg exec m qs := by
        rw [hq, hfb]; simp
      have hlt : best.quality_score < (cfg.min_quality_score : ℝ) :=
        h best (by rw [hqs]; exact List.mem_cons_self _ _)
      have h' : ∀ b ∈ queryBests cfg exec m qs,
          b.quality_score < (cfg.min_quality_score : ℝ) := by
        intro b hb
        exact h b (by rw [hqs]; exact List.mem_cons_of_mem _ hb)
      simp only [searchGo, hfb]
      rw [if_neg (not_le.mpr hlt)]
      rw [searchGo_no_accept cfg exec m qs (acc ++ [best]) h', hqs]
      rw [List.append_assoc]
      rfl

/-- An unknown (zero) candidate duration earns only the flat 0.1 credit. -/
lemma durationContrib_unknown (tol target : ℚ) : durationContrib tol 0 target = 0.1 := by
  unfold durationContrib
  rw [if_neg (fun h => lt_irrefl 0 h.1)]

/-! ## C3: exhausted retry budget returns the global best -/

/-- C3: when no query's best candidate reaches the acceptance score, the
orchestrator returns the best-scored candidate across all attempted
queries (an element of the collected per-query bests of maximal score),
and returns `none` exactly when no attempt produced a scored candidate. -/
theorem c3_exhausted_global_best (cfg : SearchConfig) (exec : String → ExecOutcome)
    (m : TrackMetadata)
    (h : ∀ b ∈ queryBests cfg exec m ((generate_search_queries m).take cfg.max_retries),
        b.quality_score < (cfg.min_quality_score : ℝ)) :
    (search cfg exec m).1
        = pickBest (queryBests cfg exec m ((generate_search_queries m).take cfg.max_retries))
    ∧ ((search cfg exec m).1 = none
        ↔ queryBests cfg exec m ((generate_search_queries m).take cfg.max_retries) = [])
    ∧ ∀ r, (search cfg exec m).1 = some r →
        r ∈ queryBests cfg exec m ((generate_search_queries m).take cfg.max_retries)
        ∧ ∀ x ∈ queryBests cfg exec m ((generate_search_queries m).take cfg.max_retries),
            x.quality_score ≤ r.quality_score := by
  have hmain : (search cfg exec m).1
      = pickBest (queryBests cfg exec m ((generate_search_queries m).take cfg.max_retries)) := by
    unfold search
    rw [searchGo_no_accept cfg exec m _ [] h, List.nil_append]
  refine ⟨hmain, ?_, ?_⟩
  · rw [hmain]
    exact pickBest_eq_none _
  · intro r hr
    rw [hmain] at hr
    by_cases hnil : queryBests cfg exec m ((generate_search_queries m).take cfg.max_retries) = []
    · rw [hnil] at hr
      simp [pickBest] at hr
    · obtain ⟨b, hpb, hbmem, hmax⟩ := pickBest_spec _ hnil
      rw [hpb] at hr
      cases hr
      exact ⟨hbmem, hmax⟩

/-- A collaborator that always times out: every query yields no results. -/
def execC3 : String → ExecOutcome := fun _ => ExecOutcome.timedOut

/-- C3 witness: with a collaborator that never returns results, no per-query
best exists, the hypothesis holds vacuously, and the orchestrator signals
"no match". -/
theorem c3_witness : (search defaultSearchConfig execC3 mC2).1 = none := by
  have hempty : queryBests defaultSearchConfig execC3 mC2
      ((generate_search_queries mC2).take defaultSearchConfig.max_retries) = [] := rfl
  exact (c3_exhausted_global_best defaultSearchConfig execC3 mC2
    (fun b hb => absurd (hempty ▸ hb) (List.not_mem_nil b))).2.1.mpr hempty

/-! ## C4: early accept after one collaborator call -/

/-- C4: if the first query's results contain a candidate scoring at least
the acceptance score, `search` returns that query's best candidate (whose
score also reaches the bar) and the collaborator is called exactly once. -/
theorem c4_early_accept_single_call (cfg : SearchConfig) (exec : String → ExecOutcome)
    (m : TrackMetadata) (q : String) (qs : List String)
    (hq : (generate_search_queries m).take cfg.max_retries = q :: qs)
    (hr : ∃ r ∈ execute_search (exec q), (cfg.min_quality_score : ℝ)
        ≤ (to_search_result cfg.duration_tolerance m ((m.duration_ms : ℚ) / 1000) r).quality_score) :
    ∃ best, find_best_match cfg.duration_tolerance (execute_search (exec q)) m = some best
      ∧ (cfg.min_quality_score : ℝ) ≤ best.quality_score
      ∧ search cfg exec m = (some best, 1) := by
  obtain ⟨r, hrmem, hrsc⟩ := hr
  have hne : (execute_search (exec q)).map
      (to_search_result cfg.duration_tolerance m ((m.duration_ms : ℚ) / 1000)) ≠ [] := by
    intro hnil
    rw [List.map_eq_nil_iff] at hnil
    rw [hnil] at hrmem
    exact List.not_mem_nil r hrmem
  obtain ⟨best, hpb, hbmem, hmax⟩ := pickBest_spec _ hne
  have hfb : find_best_match cfg.duration_tolerance (execute_search (exec q)) m = some best := hpb
  have hbsc : (cfg.min_quality_score : ℝ) ≤ best.quality_score :=
    le_trans hrsc (hmax _ (List.mem_map_of_mem _ hrmem))
  refine ⟨best, hfb, hbsc, ?_⟩
  unfold search
  rw [hq]
  simp only [searchGo, hfb]
  rw [if_pos hbsc]

/-- Concrete descriptor for the early-accept witness (no ISRC, no comma in
the artist, unknown duration). -/
def mC4 : TrackMetadata :=
  { track_id := "t2", name := "defg", artist := "abc", album := "alb",
    album_art_url := none, isrc := none, duration_ms := 0, release_date := none }

/-- First-query candidate for the early-accept witness: full title overlap
(scores 0.25), flat duration credit (0.1), zero views (0.05), neutral
keywords (0.05) — total 0.45 ≥ 0.3. -/
def rC4 : RawResult :=
  { title := some "abc defg", url := none, id := none,
    duration := none, view_count := some 0 }

/-- Collaborator that answers only the first generated query. -/
def execC4 : String → ExecOutcome := fun q =>
  if q = "abc defg" then ExecOutcome.completed 0 [LineOut.jsonOk rC4]
  else ExecOutcome.timedOut

lemma c4_witness_score : (defaultSearchConfig.min_quality_score : ℝ)
    ≤ (to_search_result defaultSearchConfig.duration_tolerance mC4
        ((mC4.duration_ms : ℚ) / 1000) rC4).quality_score := by
  have hmin : ((defaultSearchConfig.min_quality_score : ℚ) : ℝ) = 0.3 := by
    norm_num [defaultSearchConfig]
  have hq : (to_search_result defaultSearchConfig.duration_tolerance mC4
      ((mC4.duration_ms : ℚ) / 1000) rC4).quality_score
      = calculate_quality_score defaultSearchConfig.duration_tolerance rC4 mC4
        ((mC4.duration_ms : ℚ) / 1000) := rfl
  rw [hmin, hq]
  have ht : titleRelevance (pyLower (rC4.title.getD "")) (pyLower mC4.artist) (pyLower mC4.name)
      = 0.5 := by
    unfold titleRelevance
    rw [wordHits_countP, wordHits_countP]
    have ca : (pySplit (pyLower mC4.artist)).countP
        (fun w => decide (2 < w.length ∧ strContains (pyLower (rC4.title.getD "")) w = true))
        = 1 := by decide
    have cn : (pySplit (pyLower mC4.name)).countP
        (fun w => decide (2 < w.length ∧ strContains (pyLower (rC4.title.getD "")) w = true))
        = 1 := by decide
    rw [ca, cn]
    have harg : (0 : ℚ) + 0.25 * ((1 : ℕ) : ℚ) + 0.25 * ((1 : ℕ) : ℚ) = 0.5 := by
      push_cast
      norm_num
    rw [harg, min_eq_right (by norm_num)]
  have hdur0 : rC4.duration.getD 0 = 0 := rfl
  have hk : keywordScore (pyLower (rC4.title.getD "")) (pyLower mC4.name) = 0.5 :=
    keywordScore_neutral _ _ (by decide)
  have hv : rC4.view_count.getD 0 = 0 := rfl
  unfold calculate_quality_score
  rw [ht, hdur0, durationContrib_unknown, hk, hv]
  have hp : popularityContrib 0 = 0.05 := by
    unfold popularityContrib
    norm_num
  rw [hp]
  have h1 : ((0.5 * 0.5 + 0.1 : ℚ) : ℝ) = 0.35 := by norm_num
  have h2 : ((0.5 * 0.1 : ℚ) : ℝ) = 0.05 := by norm_num
  rw [h1, h2]
  have h3 : (0.35 : ℝ) + 0.05 + 0.05 = 0.45 := by norm_num
  rw [h3, max_eq_right (by norm_num : (0.1 : ℝ) ≤ 0.45),
    min_eq_right (by norm_num : (0.45 : ℝ) ≤ 1)]
  norm_num

/-- C4 witness: the collaborator answers the first query with a qualifying
candidate; `search` early-accepts it with exactly one collaborator call. -/
theorem c4_witness : ∃ best,
    find_best_match defaultSearchConfig.duration_tolerance
        (execute_search (execC4 "abc defg")) mC4 = some best
      ∧ (defaultSearchConfig.min_quality_score : ℝ) ≤ best.quality_score
      ∧ search defaultSearchConfig execC4 mC4 = (some best, 1) :=
  c4_early_accept_single_call defaultSearchConfig execC4 mC4 "abc defg"
    ["abc defg official audio", "defg abc", "abc defg lyrics", "defg audio"]
    rfl
    ⟨rC4, by rw [show execute_search (execC4 "abc defg") = [rC4] from rfl]; exact List.mem_singleton.mpr rfl,
      c4_witness_score⟩

/-! ## C5: query generator shape -/

/-- The last generated query is always the first-artist variant (which
collapses to the plain artist+name query when the artist has no comma). -/
lemma generate_search_queries_last (m : TrackMetadata) :
    (generate_search_queries m).getLast? = some (first_artist m.artist ++ " " ++ m.name) := by
  unfold generate_search_queries
  cases hi : m.isrc with
  | none => rfl
  | some i =>
    by_cases hne : i = ""
    · simp only [isrcQueries, if_pos hne]
      rfl
    · simp only [isrcQueries, if_neg hne]
      rfl

/-- C5: the Query Generator is a pure function of the descriptor whose
output has at most 9 entries in the fixed priority order: it has exactly 9
entries with the ISRC (when present and non-empty, under Python truthiness)
in fourth position, exactly 8 entries otherwise, and its last entry is the
first-artist-only variant when the artist field contains a comma but
coincides with the leading plain `"artist name"` query when it does not. -/
theorem c5_query_generator (m : TrackMetadata) :
    (generate_search_queries m).length ≤ 9
    ∧ (∀ i, m.isrc = some i → i ≠ "" →
        (generate_search_queries m).length = 9
        ∧ (generate_search_queries m).get? 3 = some i)
    ∧ ((m.isrc = none ∨ m.isrc = some "") → (generate_search_queries m).length = 8)
    ∧ (strContains m.artist "," = true →
        (generate_search_queries m).getLast?
          = some (pyTrim ((pySplitOnChar ',' m.artist).headD "") ++ " " ++ m.name))
    ∧ (strContains m.artist "," = false →
        (generate_search_queries m).getLast? = (generate_search_queries m).head?) := by
  refine ⟨?_, ?_, ?_, ?_, ?_⟩
  · unfold generate_search_queries
    cases hi : m.isrc with
    | none => simp [isrcQueries]
    | some i =>
      by_cases hne : i = ""
      · simp [isrcQueries, if_pos hne]
      · simp [isrcQueries, if_neg hne]
  · intro i hi hne
    unfold generate_search_queries
    rw [hi]
    simp only [isrcQueries, if_neg hne]
    exact ⟨rfl, rfl⟩
  · intro hi
    unfold generate_search_queries
    rcases hi with hi | hi
    · rw [hi]
      rfl
    · rw [hi]
      simp only [isrcQueries, if_pos rfl]
      rfl
  · intro hcomma
    rw [generate_search_queries_last]
    unfold first_artist
    rw [if_pos hcomma]
  · intro hcomma
    rw [generate_search_queries_last]
    unfold first_artist
    rw [if_neg (by rw [hcomma]; exact Bool.false_ne_true)]
    rfl

/-- Concrete descriptor for the C5 witness: multi-artist field and a
non-empty ISRC. -/
def mC5 : TrackMetadata :=
  { track_id := "t3", name := "nm", artist := "aa, bb", album := "al",
    album_art_url := none, isrc := some "USX123", duration_ms := 1000,
    release_date := none }

/-- C5 witness: with an ISRC present and a comma-separated artist field the
generator emits 9 queries, the ISRC in fourth position and the
first-artist-only variant last. -/
theorem c5_witness :
    (generate_search_queries mC5).length = 9
    ∧ (generate_search_queries mC5).get? 3 = some "USX123"
    ∧ (generate_search_queries mC5).getLast?
        = some (pyTrim ((pySplitOnChar ',' mC5.artist).headD "") ++ " " ++ mC5.name) := by
  have h := c5_query_generator mC5
  exact ⟨(h.2.1 "USX123" rfl (by decide)).1, (h.2.1 "USX123" rfl (by decide)).2,
    h.2.2.2.1 (by decide)⟩

/-! ## C6: idempotency of the acquisition pipeline -/

/-- The fetch phase always invokes the fetch collaborator exactly once. -/
lemma download_fetch_calls (cfg : DlConfig) (o : Oracle) (sr : SearchResult)
    (m : TrackMetadata) (files : Files) :
    (download_fetch cfg o sr m files).fetchCalls = 1 := by
  cases h : o.fetch sr.url with
  | done code stderr filesA listing =>
    simp only [download_fetch, h]
    split_ifs <;> rfl
  | timedOut => simp only [download_fetch, h]
  | raised msg => simp only [download_fetch, h]

/-- C6: when a file already exists at the canonical output path and passes
validation, `download_single` succeeds immediately, leaves the filesystem
untouched and never invokes the fetch collaborator; when the existing file
fails validation, it is deleted and the fetch phase proceeds (invoking the
collaborator exactly once). -/
theorem c6_idempotency (cfg : DlConfig) (o : Oracle) (sr : SearchResult)
    (m : TrackMetadata) (files : Files)
    (hex : (files (final_path cfg m)).isSome = true) :
    ((validate_file_detailed cfg o files (final_path cfg m)).1 = true →
      download_single cfg o sr m files
        = ⟨{ success := true, file_path := some (final_path cfg m), metadata := m,
             error := none, file_size := 0, bitrate := 0 }, files, 0⟩)
    ∧ ((validate_file_detailed cfg o files (final_path cfg m)).1 = false →
      download_single cfg o sr m files
          = download_fetch cfg o sr m (erase_file files (final_path cfg m))
        ∧ (download_single cfg o sr m files).fetchCalls = 1) := by
  constructor
  · intro hv
    unfold download_single
    rw [if_pos hex, if_pos hv]
  · intro hv
    have heq : download_single cfg o sr m files
        = download_fetch cfg o sr m (erase_file files (final_path cfg m)) := by
      unfold download_single
      rw [if_pos hex, if_neg (by rw [hv]; exact Bool.false_ne_true)]
    refine ⟨heq, ?_⟩
    rw [heq]
    exact download_fetch_calls cfg o sr m (erase_file files (final_path cfg m))

/-- Concrete descriptor for the downloader witnesses; its canonical
artifact path is `downloads/ab - cd.mp3`. -/
def mDl : TrackMetadata :=
  { track_id := "d1", name := "cd", artist := "ab", album := "al",
    album_art_url := none, isrc := none, duration_ms := 1000, release_date := none }

/-- A filesystem already holding a 600000-byte artifact at the canonical
path. -/
def filesDl : Files := fun p => if p = "downloads/ab - cd.mp3" then some 600000 else none

/-- A chosen candidate (only its URL is consulted by the downloader). -/
noncomputable def srDl : SearchResult :=
  { url := "https://www.youtube.com/watch?v=x", title := "t", duration := 0,
    view_count := 0, source := "youtube", quality_score := 0.5 }

/-- Probes report a healthy 200 kbps stream; the fetch collaborator would
time out if it were ever consulted. -/
def oDl : Oracle :=
  { probeBitrateRaw := fun _ => some 200000, probeDuration := fun _ => none,
    fetch := fun _ => FetchOutcome.timedOut }

/-- C6 witness: with a valid artifact already on disk, `download_single`
returns success immediately, with zero fetch calls and the filesystem
unchanged. -/
theorem c6_witness :
    download_single defaultDlConfig oDl srDl mDl filesDl
      = ⟨{ success := true, file_path := some (final_path defaultDlConfig mDl),
           metadata := mDl, error := none, file_size := 0, bitrate := 0 }, filesDl, 0⟩ :=
  (c6_idempotency defaultDlConfig oDl srDl mDl filesDl (by decide)).1 (by decide)

/-! ## C7: result invariants -/

/-- After the fetch phase: a successful result carries the canonical
artifact path together with exactly the metrics the validator measured on
the delivered filesystem, and a failed result carries no path. -/
lemma download_fetch_result_spec (cfg : DlConfig) (o : Oracle) (sr : SearchResult)
    (m : TrackMetadata) (files : Files) :
    ((download_fetch cfg o sr m files).res.success = true →
      (download_fetch cfg o sr m files).res.file_path = some (final_path cfg m)
      ∧ validate_file_detailed cfg o (download_fetch cfg o sr m files).files (final_path cfg m)
          = (true, (download_fetch cfg o sr m files).res.file_size,
              (download_fetch cfg o sr m files).res.bitrate))
    ∧ ((download_fetch cfg o sr m files).res.success = false →
      (download_fetch cfg o sr m files).res.file_path = none) := by
  cases h : o.fetch sr.url with
  | done code stderr filesA listing =>
    simp only [download_fetch, h]
    by_cases hc : code ≠ 0
    · rw [if_pos hc]
      exact ⟨fun hs => absurd hs (by simp [failResult]), fun _ => rfl⟩
    · rw [if_neg hc]
      by_cases hmiss : (post_fetch_files cfg m filesA listing (final_path cfg m)).isNone = true
      · rw [if_pos hmiss]
        exact ⟨fun hs => absurd hs (by simp [failResult]), fun _ => rfl⟩
      · rw [if_neg hmiss]
        by_cases hval : (validate_file_detailed cfg o (post_fetch_files cfg m filesA listing)
            (final_path cfg m)).1 = true
        · rw [if_pos hval]
          refine ⟨fun _ => ⟨rfl, ?_⟩, fun hs => absurd hs (by simp)⟩
          conv_rhs => rw [← hval]
        · rw [if_neg hval]
          exact ⟨fun hs => absurd hs (by simp [failResult]), fun _ => rfl⟩
  | timedOut =>
    simp only [download_fetch, h]
    exact ⟨fun hs => absurd hs (by simp [failResult]), fun _ => rfl⟩
  | raised msg =>
    simp only [download_fetch, h]
    exact ⟨fun hs => absurd hs (by simp [failResult]), fun _ => rfl⟩

/-- C7 (amended): for every `DownloadResult` produced by `download_single`,
the artifact path is set exactly when the result is a success (and then it
is the canonical output path); a success produced by an actual fetch
(one fetch call) carries precisely the size and bitrate the validator
measured on the delivered artifact; but the idempotent success (zero fetch
calls, artifact already on disk) carries the dataclass defaults 0/0 instead
of the measured metrics — the unrestricted claim fails there (see the
counterexample). -/
theorem c7_amended_result_metrics (cfg : DlConfig) (o : Oracle) (sr : SearchResult)
    (m : TrackMetadata) (files : Files) :
    ((download_single cfg o sr m files).res.success = true →
      (download_single cfg o sr m files).res.file_path = some (final_path cfg m))
    ∧ ((download_single cfg o sr m files).res.success = false →
      (download_single cfg o sr m files).res.file_path = none)
    ∧ ((download_single cfg o sr m files).res.success = true →
      (download_single cfg o sr m files).fetchCalls = 1 →
      validate_file_detailed cfg o (download_single cfg o sr m files).files (final_path cfg m)
        = (true, (download_single cfg o sr m files).res.file_size,
            (download_single cfg o sr m files).res.bitrate))
    ∧ ((download_single cfg o sr m files).res.success = true →
      (download_single cfg o sr m files).fetchCalls = 0 →
      (download_single cfg o sr m files).res.file_size = 0
        ∧ (download_single cfg o sr m files).res.bitrate = 0) := by
  unfold download_single
  by_cases hex : (files (final_path cfg m)).isSome = true
  · rw [if_pos hex]
    by_cases hv : (validate_file_detailed cfg o files (final_path cfg m)).1 = true
    · rw [if_pos hv]
      exact ⟨fun _ => rfl, fun hs => absurd hs (by simp), fun _ h1 => absurd h1 (by simp),
        fun _ _ => ⟨rfl, rfl⟩⟩
    · rw [if_neg (by rw [show (validate_file_detailed cfg o files (final_path cfg m)).1 = false
          from Bool.not_eq_true _ ▸ eq_false_of_ne_true hv]; exact Bool.false_ne_true)]
      have hspec := download_fetch_result_spec cfg o sr m (erase_file files (final_path cfg m))
      have hcalls := download_fetch_calls cfg o sr m (erase_file files (final_path cfg m))
      exact ⟨fun hs => (hspec.1 hs).1, hspec.2, fun hs _ => (hspec.1 hs).2,
        fun _ h0 => absurd (hcalls ▸ h0) one_ne_zero⟩
  · rw [if_neg hex]
    have hspec := download_fetch_result_spec cfg o sr m files
    have hcalls := download_fetch_calls cfg o sr m files
    exact ⟨fun hs => (hspec.1 hs).1, hspec.2, fun hs _ => (hspec.1 hs).2,
      fun _ h0 => absurd (hcalls ▸ h0) one_ne_zero⟩

/-- C7 counterexample: at the concrete idempotent input (a valid
600000-byte, 200 kbps artifact already on disk) `download_single` returns
success with the artifact path but `file_size = 0` and `bitrate = 0`,
whereas the validator measured 600000 bytes and 200 kbps — so "every
successful result carries the measured file size and bitrate" is false as
stated. -/
theorem c7_counterexample :
    (download_single defaultDlConfig oDl srDl mDl filesDl).res.success = true
    ∧ (download_single defaultDlConfig oDl srDl mDl filesDl).res.file_size = 0
    ∧ (download_single defaultDlConfig oDl srDl mDl filesDl).res.bitrate = 0
    ∧ (validate_file_detailed defaultDlConfig oDl filesDl (final_path defaultDlConfig mDl)).2.1
        = 600000
    ∧ (validate_file_detailed defaultDlConfig oDl filesDl (final_path defaultDlConfig mDl)).2.2
        = 200 := by
  refine ⟨?_, ?_, ?_, ?_, ?_⟩ <;> decide

/-- C7 witness for the amended theorem: at the idempotent input the success
carries the canonical artifact path. -/
theorem c7_witness :
    (download_single defaultDlConfig oDl srDl mDl filesDl).res.file_path
      = some (final_path defaultDlConfig mDl) :=
  (c7_amended_result_metrics defaultDlConfig oDl srDl mDl filesDl).1 (by decide)

/-! ## C8: batch coordinator -/

/-- C8: for any submitted batch and any completion order (a permutation of
the item indices), `download_batch` returns exactly one result per item,
the multiset of result descriptors is exactly the multiset of submitted
descriptors (assuming, as `download_single` guarantees, that a worker's
result carries its item's descriptor), and an item whose acquisition raised
an exception still contributes a failure result — it never aborts its
siblings. -/
theorem c8_batch_complete (items : List (SearchResult × TrackMetadata))
    (run : SearchResult × TrackMetadata → Except String DownloadResult)
    (order : List (Fin items.length))
    (hperm : order.Perm (List.finRange items.length))
    (hmeta : ∀ (i : Fin items.length) (r : DownloadResult),
        run (items.get i) = Except.ok r → r.metadata = (items.get i).2) :
    (download_batch items run order).length = items.length
    ∧ ((download_batch items run order).map (fun r => r.metadata)).Perm
        (items.map (fun it => it.2))
    ∧ ∀ (i : Fin items.length) (e : String), run (items.get i) = Except.error e →
        failResult (items.get i).2 e ∈ download_batch items run order := by
  have hcollect : ∀ i : Fin items.length,
      (collectOne (items.get i) run).metadata = (items.get i).2 := by
    intro i
    unfold collectOne
    cases hrun : run (items.get i) with
    | ok r => exact hmeta i r hrun
    | error e => rfl
  refine ⟨?_, ?_, ?_⟩
  · unfold download_batch
    rw [List.length_map, hperm.length_eq, List.length_finRange]
  · unfold download_batch
    rw [List.map_map]
    have hfun : ((fun r : DownloadResult => r.metadata) ∘ fun i => collectOne (items.get i) run)
        = fun i : Fin items.length => (items.get i).2 := funext fun i => hcollect i
    rw [hfun]
    have hp2 := hperm.map (fun i : Fin items.length => (items.get i).2)
    have hfin : (List.finRange items.length).map (fun i : Fin items.length => (items.get i).2)
        = items.map (fun it => it.2) := by
      rw [show (fun i : Fin items.length => (items.get i).2)
          = (fun it : SearchResult × TrackMetadata => it.2) ∘ items.get from rfl,
        ← List.map_map, List.finRange_map_get]
    rw [hfin] at hp2
    exact hp2
  · intro i e hrun
    unfold download_batch
    have hi : i ∈ order := hperm.mem_iff.mpr (List.mem_finRange i)
    have hone : collectOne (items.get i) run = failResult (items.get i).2 e := by
      unfold collectOne
      rw [hrun]
    exact hone ▸ List.mem_map_of_mem (fun j => collectOne (items.get j) run) hi

/-- A two-item batch for the C8 witness. -/
noncomputable def itemsB : List (SearchResult × TrackMetadata) := [(srDl, mDl), (srDl, mC4)]

/-- Every acquisition raises (the `future.result()` of each item throws). -/
def runB : SearchResult × TrackMetadata → Except String DownloadResult :=
  fun _ => Except.error "boom"

/-- Completion order: the second item finishes first. -/
def orderB : List (Fin 2) := [⟨1, by norm_num⟩, ⟨0, by norm_num⟩]

/-- C8 witness: both items of the batch yield results (two results for two
items) and the first item's raised exception is collected as a failure
result rather than aborting the batch. -/
theorem c8_witness :
    (download_batch itemsB runB orderB).length = 2
    ∧ failResult mDl "boom" ∈ download_batch itemsB runB orderB := by
  have h := c8_batch_complete itemsB runB orderB (by decide)
    (fun i r hr => Except.noConfusion hr)
  exact ⟨h.1, h.2.2 ⟨0, by simp [itemsB]⟩ "boom" rfl⟩

/-! ## C9: bitrate probe fallback -/

/-- C9: when the stream bit-rate probe fails, the bitrate is estimated from
the file size and the probed duration as `int(size * 8 / (duration * 1000))`
(i.e. `size*8/duration` bits per second, expressed in kbps); when the size
or a positive duration is also unavailable, the conservative default
192 kbps is returned, so with the default thresholds a file of sufficient
size never fails validation merely because both probes failed. -/
theorem c9_bitrate_fallback (o : Oracle) (files : Files) (path : String)
    (hprobe : o.probeBitrateRaw path = none) :
    (∀ (sz : ℕ) (d : ℚ), files path = some sz → o.probeDuration path = some d → 0 < d →
        get_bitrate o files path = ⌊((sz : ℚ) * 8) / (d * 1000)⌋)
    ∧ (files path = none → get_bitrate o files path = 192)
    ∧ (∀ sz : ℕ, files path = some sz → o.probeDuration path = none →
        get_bitrate o files path = 192)
    ∧ (∀ (sz : ℕ) (d : ℚ), files path = some sz → o.probeDuration path = some d → ¬0 < d →
        get_bitrate o files path = 192)
    ∧ (∀ (cfg : DlConfig) (sz : ℕ), files path = some sz → cfg.min_file_size ≤ sz →
        o.probeDuration path = none → cfg.min_bitrate ≤ 192 →
        (validate_file_detailed cfg o files path).1 = true) := by
  refine ⟨?_, ?_, ?_, ?_, ?_⟩
  · intro sz d hsz hd hdpos
    simp only [get_bitrate, hprobe, hsz, hd]
    rw [if_pos hdpos]
  · intro hnone
    simp only [get_bitrate, hprobe, hnone]
  · intro sz hsz hd
    simp only [get_bitrate, hprobe, hsz, hd]
  · intro sz d hsz hd hdneg
    simp only [get_bitrate, hprobe, hsz, hd]
    rw [if_neg hdneg]
  · intro cfg sz hsz hmin hd h192
    have hbr : get_bitrate o files path = 192 := by
      simp only [get_bitrate, hprobe, hsz, hd]
    simp only [validate_file_detailed, hsz, hbr]
    rw [if_neg (not_lt.mpr hmin), if_neg (not_lt.mpr h192)]

/-- Oracle for the C9 witness: bit-rate probe fails, duration probe
reports 240 s. -/
def oC9 : Oracle :=
  { probeBitrateRaw := fun _ => none, probeDuration := fun _ => some 240,
    fetch := fun _ => FetchOutcome.timedOut }

/-- Filesystem for the C9 witness: a 600000-byte file everywhere. -/
def filesC9 : Files := fun _ => some 600000

/-- C9 witness: with a failed bit-rate probe, a 600000-byte file and a
probed duration of 240 s, the estimate is `⌊600000·8 / (240·1000)⌋`
(= 20 kbps). -/
theorem c9_witness :
    get_bitrate oC9 filesC9 "downloads/x.mp3"
      = ⌊(((600000 : ℕ) : ℚ) * 8) / ((240 : ℚ) * 1000)⌋ :=
  (c9_bitrate_fallback oC9 filesC9 "downloads/x.mp3" rfl).1 600000 240 rfl rfl (by norm_num)

/-! ## C10: collaborator failures never escape the search -/

/-- C10: `_execute_search` converts every collaborator failure — timeout,
raised exception, nonzero exit status — into an empty result list, drops
blank and malformed JSON lines of a successful run, and consequently
`search` is total over collaborator behaviour: it always returns either a
result or `none`, never an error. -/
theorem c10_search_total :
    (∀ msg, execute_search (ExecOutcome.raised msg) = [])
    ∧ execute_search ExecOutcome.timedOut = []
    ∧ (∀ (rc : ℤ) (lines : List LineOut), rc ≠ 0 →
        execute_search (ExecOutcome.completed rc lines) = [])
    ∧ (∀ lines : List LineOut,
        execute_search (ExecOutcome.completed 0 lines) = lines.filterMap lineResult)
    ∧ (∀ (cfg : SearchConfig) (exec : String → ExecOutcome) (m : TrackMetadata),
        (search cfg exec m).1 = none ∨ ∃ r, (search cfg exec m).1 = some r) := by
  refine ⟨fun _ => rfl, rfl, ?_, ?_, ?_⟩
  · intro rc lines hrc
    simp only [execute_search]
    rw [if_pos hrc]
  · intro lines
    simp only [execute_search]
    rw [if_neg (by simp)]
  · intro cfg exec m
    cases h : (search cfg exec m).1 with
    | none => exact Or.inl rfl
    | some r => exact Or.inr ⟨r, rfl⟩

/-- C10 witness: a nonzero-exit collaborator run yields the empty result
list. -/
theorem c10_witness : execute_search (ExecOutcome.completed 1 [LineOut.jsonBad]) = [] :=
  (c10_search_total.2.2.1) 1 [LineOut.jsonBad] (by norm_num)
